import Mathlib

/-!
Shallow embedding of `src/s3cli.py`, a single-file CLI for an S3-compatible
object store.  Every handler in the source performs: client construction from
environment variables, a bucket lookup, at most one local file read, exactly
one storage call, and some printing.  We embed the program as pure functions
from (environment, file system, store behaviour, mimetype table, parsed
arguments) to an `Outcome` recording stdout, stderr, the process result and
the list of storage-network calls attempted.

External collaborators are abstracted as function parameters:
  * the process environment (after `load_dotenv()`): an association list;
  * the local file system: `String → Option (List Nat)` (path to bytes);
  * `mimetypes.guess_type`: `String → Option String`;
  * the minio client: a `Store` record giving each operation's reply, an
    `S3Error` being modelled by its display string.
-/

abbrev PEnv := List (String × String)
abbrev FS := String → Option (List Nat)
abbrev Mime := String → Option String

/-- `os.getenv`: first binding of the name, if any. -/
def getenv (env : PEnv) (name : String) : Option String :=
  (env.find? (fun p => p.fst == name)).map Prod.snd

/-- The message printed by `require_env` before `sys.exit(1)`. -/
def missingMsg (name : String) : String := "[FATAL] Missing env var: " ++ name

/-- `require_env` (s3cli.py lines 17-22): `v = os.getenv(name); if not v: fatal`.
Python's `not v` is true both for `None` and for the empty string. -/
def require_env (env : PEnv) (name : String) : Except String String :=
  match getenv env name with
  | none => .error (missingMsg name)
  | some v => if v = "" then .error (missingMsg name) else .ok v

/-- Python `str.replace` for a nonempty pattern (the only form `make_client`
uses): scan left to right, replace each non-overlapping occurrence.  `fuel`
is the length of the scanned list; each step consumes at least one element,
so the fuel never runs out on the initial call. -/
def replaceGo (pat rep : List Char) : Nat → List Char → List Char
  | _, [] => []
  | 0, l => l
  | fuel + 1, c :: rest =>
    if pat.isPrefixOf (c :: rest) then
      rep ++ replaceGo pat rep fuel (List.drop (pat.length - 1) rest)
    else
      c :: replaceGo pat rep fuel rest

/-- Python `s.replace(pat, rep)` for nonempty `pat`. -/
def pyReplace (s pat rep : String) : String :=
  ⟨replaceGo pat.data rep.data s.data.length s.data⟩

/-- The endpoint transformation in `make_client` (line 26):
`endpoint.replace("https://", "").replace("http://", "")` — note Python's
`replace` removes every occurrence, not only a leading scheme. -/
def strip_scheme (s : String) : String :=
  pyReplace (pyReplace s "https://" "") "http://" ""

/-- The `Minio(...)` handle: its constructor performs no network I/O, it only
records the connection parameters. -/
structure ClientConfig where
  endpoint : String
  access_key : String
  secret_key : String
  secure : Bool
deriving DecidableEq

/-- `make_client` (lines 25-36). -/
def make_client (env : PEnv) (insecure : Bool) : Except String ClientConfig :=
  match require_env env "S3_ENDPOINT" with
  | .error m => .error m
  | .ok epRaw =>
    match require_env env "S3_ACCESS_KEY" with
    | .error m => .error m
    | .ok ak =>
      match require_env env "S3_SECRET_KEY" with
      | .error m => .error m
      | .ok sk => .ok ⟨strip_scheme epRaw, ak, sk, !insecure⟩

/-- Split a character list at a separator (used for `pathlib` name logic). -/
def splitChar (sep : Char) : List Char → List (List Char)
  | [] => [[]]
  | c :: rest =>
    let r := splitChar sep rest
    if c = sep then [] :: r
    else
      match r with
      | [] => [[c]]
      | h :: t => (c :: h) :: t

/-- `pathlib.Path(p).name`: the last path component after dropping empty
components and single dots (pathlib normalisation); `""` for a root or empty
path. -/
def pathName (p : String) : String :=
  let comps := (splitChar '/' p.data).filter (fun c => !c.isEmpty && c != ['.'])
  match comps.getLast? with
  | some c => ⟨c⟩
  | none => ""

/-- Python `x or d` where `x` is `None` or a string: the default is taken both
for `None` and for the empty string. -/
def pyOr (v : Option String) (d : String) : String :=
  match v with
  | none => d
  | some s => if s = "" then d else s

/-- Python `s or d` on strings: `d` exactly when `s` is empty. -/
def pyOrStr (s d : String) : String := if s = "" then d else s

/-- `guess_content_type` (lines 39-41): `mimetypes.guess_type(path.name)` with
fallback `application/octet-stream`. -/
def guess_content_type (mime : Mime) (path : String) : String :=
  pyOr (mime (pathName path)) "application/octet-stream"

/-- Metadata returned by `stat_object`. -/
structure StatResult where
  size : Nat
  content_type : String
  etag : String
deriving DecidableEq

/-- One entry returned by `list_objects`. -/
structure SObj where
  object_name : String
  size : Nat
deriving DecidableEq

/-- Behaviour of the remote store, one function per operation used by the
program.  `Except String` carries an `S3Error` (or other storage exception)
by its display string.  `list_objects` is a generator; we model its outcome
as either the full listing or a failure. -/
structure Store where
  stat : String → String → Except String StatResult
  listO : String → String → Except String (List SObj)
  put : String → String → List Nat → String → Except String Unit
  remove : String → String → Except String Unit
  presign : String → String → Int → Except String String

/-- One storage-network call, with the arguments the program passed. -/
inductive NetworkCall where
  | putObject (bucket key : String) (data : List Nat) (length : Nat) (contentType : String)
  | statObject (bucket key : String)
  | listObjects (bucket pfx : String) (recursive : Bool)
  | removeObject (bucket key : String)
  | presignedGetObject (bucket key : String) (expiresSeconds : Int)
deriving DecidableEq

/-- How the handler finished: normal return, `sys.exit(code)`, or an uncaught
exception propagating out of the handler. -/
inductive PResult where
  | ok
  | exited (code : Nat)
  | raised (msg : String)
deriving DecidableEq

/-- Observable outcome of one invocation: stdout lines (one per `print`),
stderr lines, the process result, and the storage calls attempted in order. -/
structure Outcome where
  stdout : List String
  stderr : List String
  result : PResult
  calls : List NetworkCall
deriving DecidableEq

/-- Outcome of a `require_env` failure: message to stderr, `sys.exit(1)`,
nothing on stdout, no storage call attempted. -/
def fatalOutcome (m : String) : Outcome := ⟨[], [m], .exited 1, []⟩

/-- Common prelude of every handler: `client = make_client(args.insecure)`
followed by `bucket = require_env("S3_BUCKET")`; on success the rest of the
handler `k` runs with the client and bucket. -/
def withSetup (env : PEnv) (insecure : Bool) (k : ClientConfig → String → Outcome) : Outcome :=
  match make_client env insecure with
  | .error m => fatalOutcome m
  | .ok client =>
    match require_env env "S3_BUCKET" with
    | .error m => fatalOutcome m
    | .ok bucket => k client bucket

/-- `do_upload` (lines 44-64).  `str(Path(p))` is printed as `p` (path-string
normalisation is immaterial to the claims). -/
def do_upload (env : PEnv) (fs : FS) (store : Store) (mime : Mime) (insecure : Bool)
    (file : String) (key? : Option String) (pfx : String) : Outcome :=
  withSetup env insecure fun _client bucket =>
    match fs file with
    | none => ⟨[], ["[FATAL] File not found: " ++ file], .exited 1, []⟩
    | some data =>
      let key := pyOr key? (pfx ++ pathName file)
      let content_type := guess_content_type mime file
      let step := "[STEP] Uploading " ++ file ++ " -> s3://" ++ bucket ++ "/" ++ key
      match store.put bucket key data content_type with
      | .ok _ =>
        ⟨[step, "[OK] Uploaded."], [], .ok,
          [.putObject bucket key data data.length content_type]⟩
      | .error e =>
        ⟨[step], [], .raised e,
          [.putObject bucket key data data.length content_type]⟩

/-- `do_presign` (lines 67-71): `expires=timedelta(seconds=args.expires)`. -/
def do_presign (env : PEnv) (store : Store) (insecure : Bool)
    (key : String) (expires : Int) : Outcome :=
  withSetup env insecure fun _client bucket =>
    match store.presign bucket key expires with
    | .ok url => ⟨[url], [], .ok, [.presignedGetObject bucket key expires]⟩
    | .error e => ⟨[], [], .raised e, [.presignedGetObject bucket key expires]⟩

/-- The single line `do_head` prints on success (one `print` call containing
embedded newlines). -/
def headLine (key : String) (st : StatResult) : String :=
  "Key: " ++ key ++ "\nSize: " ++ toString st.size ++
  "\nContentType: " ++ st.content_type ++ "\nETag: " ++ st.etag

/-- `do_head` (lines 74-82): the only handler with a `try/except S3Error`. -/
def do_head (env : PEnv) (store : Store) (insecure : Bool) (key : String) : Outcome :=
  withSetup env insecure fun _client bucket =>
    match store.stat bucket key with
    | .ok st => ⟨[headLine key st], [], .ok, [.statObject bucket key]⟩
    | .error e => ⟨[], ["[ERR] " ++ e], .exited 1, [.statObject bucket key]⟩

/-- The per-object line printed by `do_list`: `f"{o.object_name}\t{o.size}B"`. -/
def listLine (o : SObj) : String :=
  o.object_name ++ "\t" ++ toString o.size ++ "B"

/-- `do_list` (lines 85-95): `prefix = args.prefix or ""`, then one line per
yielded object, then `(empty)` when nothing was yielded. -/
def do_list (env : PEnv) (store : Store) (insecure : Bool) (pfx : String) : Outcome :=
  withSetup env insecure fun _client bucket =>
    let p := pyOrStr pfx ""
    match store.listO bucket p with
    | .ok objs =>
      let lines := objs.map listLine
      if objs.isEmpty then
        ⟨lines ++ ["(empty)"], [], .ok, [.listObjects bucket p true]⟩
      else
        ⟨lines, [], .ok, [.listObjects bucket p true]⟩
    | .error e => ⟨[], [], .raised e, [.listObjects bucket p true]⟩

/-- `do_delete` (lines 98-102): `print("[OK] Deleted:", args.key)`. -/
def do_delete (env : PEnv) (store : Store) (insecure : Bool) (key : String) : Outcome :=
  withSetup env insecure fun _client bucket =>
    match store.remove bucket key with
    | .ok _ => ⟨["[OK] Deleted: " ++ key], [], .ok, [.removeObject bucket key]⟩
    | .error e => ⟨[], [], .raised e, [.removeObject bucket key]⟩

/-- `do_overwrite` (lines 105-123): like upload, mandatory key, no key logic. -/
def do_overwrite (env : PEnv) (fs : FS) (store : Store) (mime : Mime) (insecure : Bool)
    (key : String) (file : String) : Outcome :=
  withSetup env insecure fun _client bucket =>
    match fs file with
    | none => ⟨[], ["[FATAL] File not found: " ++ file], .exited 1, []⟩
    | some data =>
      let content_type := guess_content_type mime file
      let step := "[STEP] Overwriting " ++ file ++ " -> s3://" ++ bucket ++ "/" ++ key
      match store.put bucket key data content_type with
      | .ok _ =>
        ⟨[step, "[OK] Overwritten."], [], .ok,
          [.putObject bucket key data data.length content_type]⟩
      | .error e =>
        ⟨[step], [], .raised e,
          [.putObject bucket key data data.length content_type]⟩

/-- A parsed command line: one of the six subcommands with its arguments as
`argparse` delivers them to the handler. -/
inductive Cmd where
  | upload (file : String) (key? : Option String) (pfx : String)
  | presign (key : String) (expires : Int)
  | head (key : String)
  | list (pfx : String)
  | delete (key : String)
  | overwrite (key : String) (file : String)
deriving DecidableEq

/-- `args.func(args)`: dispatch to the matching handler. -/
def runCmd (env : PEnv) (fs : FS) (store : Store) (mime : Mime) (insecure : Bool) :
    Cmd → Outcome
  | .upload file key? pfx => do_upload env fs store mime insecure file key? pfx
  | .presign key expires => do_presign env store insecure key expires
  | .head key => do_head env store insecure key
  | .list pfx => do_list env store insecure pfx
  | .delete key => do_delete env store insecure key
  | .overwrite key file => do_overwrite env fs store mime insecure key file

/-- CPython's handling of an exception escaping `main`: traceback on stderr
and exit code 1. -/
def pythonRun (o : Outcome) : Outcome :=
  match o.result with
  | .raised e =>
    ⟨o.stdout, o.stderr ++ ["Traceback (most recent call last): " ++ e], .exited 1, o.calls⟩
  | _ => o

/-- Whole-process behaviour of one invocation: handler plus interpreter-level
exception handling. -/
def runProgram (env : PEnv) (fs : FS) (store : Store) (mime : Mime) (insecure : Bool)
    (c : Cmd) : Outcome :=
  pythonRun (runCmd env fs store mime insecure c)

/-- `argparse` defaults for `upload`: `--key` has no default (`None`),
`--prefix` defaults to `""`. -/
def parseUpload (file : String) (key? : Option String) (pfx? : Option String) : Cmd :=
  .upload file key? (pfx?.getD "")

/-- `argparse` defaults for `presign`: `--expires` defaults to `300`. -/
def parsePresign (key : String) (expires? : Option Int) : Cmd :=
  .presign key (expires?.getD 300)

/-- `argparse` defaults for `list`: `--prefix` defaults to `""`. -/
def parseList (pfx? : Option String) : Cmd :=
  .list (pfx?.getD "")

/-- The four environment variables every subcommand requires. -/
def requiredVars : List String :=
  ["S3_ENDPOINT", "S3_ACCESS_KEY", "S3_SECRET_KEY", "S3_BUCKET"]

/-- Spec-side reading of the endpoint transformation: remove only a LEADING
URL scheme and leave the rest unchanged.  Stated from the spec's words, to be
compared with `strip_scheme`, the transformation the code performs. -/
def stripLeadingScheme (s : String) : String :=
  if "https://".data.isPrefixOf s.data then ⟨s.data.drop 8⟩
  else if "http://".data.isPrefixOf s.data then ⟨s.data.drop 7⟩
  else s

/-- Does `pat` occur as a contiguous substring? -/
def hasSub (pat : List Char) : List Char → Bool
  | [] => pat.isEmpty
  | c :: rest => pat.isPrefixOf (c :: rest) || hasSub pat rest

example : strip_scheme "http://a/http://b" = "a/b" := by decide
example : strip_scheme "https://example.com:9000" = "example.com:9000" := by decide
example : pathName "dir/sub/f.txt" = "f.txt" := by decide
example : pathName "f.txt" = "f.txt" := by decide

/-! ### Concrete fixtures (environments, file systems, stores) -/

/-- A complete environment, as after a successful `load_dotenv()`. -/
def envEx : PEnv :=
  [("S3_ENDPOINT", "http://localhost:9000"), ("S3_ACCESS_KEY", "ak"),
   ("S3_SECRET_KEY", "sk"), ("S3_BUCKET", "bkt")]

/-- A file system holding one three-byte file `f.txt`. -/
def fsEx : FS := fun p => if p = "f.txt" then some [1, 2, 3] else none

/-- A mimetype table that never recognises an extension. -/
def mimeEx : Mime := fun _ => none

/-- A store that answers every operation successfully (and reports `gone`
as a missing key). -/
def storeEx : Store :=
  { stat := fun _ k => if k = "gone" then .error "NoSuchKey" else .ok ⟨3, "text/plain", "etag1"⟩
    listO := fun _ _ => .ok [⟨"a.txt", 3⟩, ⟨"b.bin", 7⟩]
    put := fun _ _ _ _ => .ok ()
    remove := fun _ _ => .ok ()
    presign := fun _ k _ => .ok ("https://signed/" ++ k) }

/-- A store that rejects every operation with the same error. -/
def storeFail : Store :=
  { stat := fun _ _ => .error "boom"
    listO := fun _ _ => .error "boom"
    put := fun _ _ _ _ => .error "boom"
    remove := fun _ _ => .error "boom"
    presign := fun _ _ _ => .error "boom" }

/-- A store whose listings are empty. -/
def storeEmpty : Store := { storeEx with listO := fun _ _ => .ok [] }

/-! ### Lemmas about `require_env` and the handler prelude -/

theorem requireEnv_ok (env : PEnv) (n v : String) (h : getenv env n = some v) (hv : v ≠ "") :
    require_env env n = .ok v := by
  unfold require_env
  rw [h]
  simp [hv]

theorem requireEnv_eq (env : PEnv) (n : String) :
    require_env env n = .error (missingMsg n) ∨
      ∃ v, require_env env n = .ok v ∧ getenv env n = some v ∧ v ≠ "" := by
  unfold require_env
  cases h : getenv env n with
  | none => exact .inl rfl
  | some v =>
    by_cases hv : v = ""
    · subst hv
      simp
    · exact .inr ⟨v, by simp [hv], rfl, hv⟩

theorem make_client_ok (env : PEnv) (insecure : Bool) (ep ak sk : String)
    (hE : getenv env "S3_ENDPOINT" = some ep) (hEne : ep ≠ "")
    (hA : getenv env "S3_ACCESS_KEY" = some ak) (hAne : ak ≠ "")
    (hS : getenv env "S3_SECRET_KEY" = some sk) (hSne : sk ≠ "") :
    make_client env insecure = .ok ⟨strip_scheme ep, ak, sk, !insecure⟩ := by
  unfold make_client
  rw [requireEnv_ok env _ ep hE hEne, requireEnv_ok env _ ak hA hAne,
    requireEnv_ok env _ sk hS hSne]

theorem withSetup_ok (env : PEnv) (insecure : Bool) (k : ClientConfig → String → Outcome)
    (ep ak sk bk : String)
    (hE : getenv env "S3_ENDPOINT" = some ep) (hEne : ep ≠ "")
    (hA : getenv env "S3_ACCESS_KEY" = some ak) (hAne : ak ≠ "")
    (hS : getenv env "S3_SECRET_KEY" = some sk) (hSne : sk ≠ "")
    (hB : getenv env "S3_BUCKET" = some bk) (hBne : bk ≠ "") :
    withSetup env insecure k = k ⟨strip_scheme ep, ak, sk, !insecure⟩ bk := by
  unfold withSetup
  rw [make_client_ok env insecure ep ak sk hE hEne hA hAne hS hSne,
    requireEnv_ok env _ bk hB hBne]

theorem withSetup_fatal (env : PEnv) (insecure : Bool) (k : ClientConfig → String → Outcome)
    (h : ∃ v ∈ requiredVars, getenv env v = none ∨ getenv env v = some "") :
    ∃ w ∈ requiredVars, withSetup env insecure k = fatalOutcome (missingMsg w) := by
  unfold withSetup make_client
  rcases requireEnv_eq env "S3_ENDPOINT" with hE | ⟨ep, hE, hEg, hEne⟩
  · exact ⟨"S3_ENDPOINT", by decide, by rw [hE]⟩
  rcases requireEnv_eq env "S3_ACCESS_KEY" with hA | ⟨ak, hA, hAg, hAne⟩
  · exact ⟨"S3_ACCESS_KEY", by decide, by rw [hE, hA]⟩
  rcases requireEnv_eq env "S3_SECRET_KEY" with hS | ⟨sk, hS, hSg, hSne⟩
  · exact ⟨"S3_SECRET_KEY", by decide, by rw [hE, hA, hS]⟩
  rcases requireEnv_eq env "S3_BUCKET" with hB | ⟨bk, hB, hBg, hBne⟩
  · exact ⟨"S3_BUCKET", by decide, by rw [hE, hA, hS, hB]⟩
  exfalso
  rcases h with ⟨v, hv, hnone⟩
  fin_cases hv
  · simp [hEg, hEne] at hnone
  · simp [hAg, hAne] at hnone
  · simp [hSg, hSne] at hnone
  · simp [hBg, hBne] at hnone

/-! ### Lemmas about the `str.replace` model -/

theorem replaceGo_nil (pat rep : List Char) (fuel : Nat) :
    replaceGo pat rep fuel [] = [] := by
  cases fuel <;> rfl

theorem replaceGo_noSub (pat rep l : List Char) (h : hasSub pat l = false) :
    ∀ fuel, replaceGo pat rep fuel l = l := by
  induction l with
  | nil => intro fuel; exact replaceGo_nil pat rep fuel
  | cons c rest ih =>
    intro fuel
    cases fuel with
    | zero => rfl
    | succ n =>
      rw [hasSub] at h
      cases hp : pat.isPrefixOf (c :: rest) with
      | true => rw [hp] at h; simp at h
      | false =>
        rw [hp] at h
        simp only [Bool.false_or] at h
        simp [replaceGo, hp, ih h]

theorem pyReplace_noSub (s pat rep : String) (h : hasSub pat.data s.data = false) :
    pyReplace s pat rep = s := by
  unfold pyReplace
  rw [replaceGo_noSub pat.data rep.data s.data h]

theorem isPrefixOf_append_self (l t : List Char) : l.isPrefixOf (l ++ t) = true := by
  induction l with
  | nil => simp [List.isPrefixOf]
  | cons a l ih => simp [List.isPrefixOf, ih]

theorem replaceGo_cons_pos (pat rep : List Char) (n : Nat) (c : Char) (rest : List Char)
    (h : pat.isPrefixOf (c :: rest) = true) :
    replaceGo pat rep (n + 1) (c :: rest) =
      rep ++ replaceGo pat rep n (List.drop (pat.length - 1) rest) := by
  simp [replaceGo, h]

theorem pyReplace_leading (pat r : String) (p : Char) (ps : List Char)
    (hp : pat.data = p :: ps) (hno : hasSub pat.data r.data = false) :
    pyReplace (pat ++ r) pat "" = r := by
  unfold pyReplace
  have hd : (pat ++ r).data = p :: (ps ++ r.data) := by
    rw [String.data_append, hp]
    rfl
  rw [hd, hp]
  rw [hp] at hno
  have hpre : (p :: ps).isPrefixOf (p :: (ps ++ r.data)) = true :=
    isPrefixOf_append_self (p :: ps) r.data
  rw [List.length_cons,
    replaceGo_cons_pos (p :: ps) "".data (ps ++ r.data).length p (ps ++ r.data) hpre]
  have hdrop : List.drop ((p :: ps).length - 1) (ps ++ r.data) = r.data := by
    simp
  rw [hdrop, replaceGo_noSub (p :: ps) "".data r.data hno]
  rfl

/-! ### Helper lemmas for the handlers -/

theorem do_upload_calls (env : PEnv) (fs : FS) (store : Store) (mime : Mime) (insecure : Bool)
    (file : String) (key? : Option String) (pfx : String) (data : List Nat)
    (ep ak sk bk : String)
    (hE : getenv env "S3_ENDPOINT" = some ep) (hEne : ep ≠ "")
    (hA : getenv env "S3_ACCESS_KEY" = some ak) (hAne : ak ≠ "")
    (hS : getenv env "S3_SECRET_KEY" = some sk) (hSne : sk ≠ "")
    (hB : getenv env "S3_BUCKET" = some bk) (hBne : bk ≠ "")
    (hf : fs file = some data) :
    (do_upload env fs store mime insecure file key? pfx).calls =
      [.putObject bk (pyOr key? (pfx ++ pathName file)) data data.length
        (guess_content_type mime file)] := by
  unfold do_upload
  rw [withSetup_ok env insecure _ ep ak sk bk hE hEne hA hAne hS hSne hB hBne]
  simp only [hf]
  cases h2 : store.put bk (pyOr key? (pfx ++ pathName file)) data (guess_content_type mime file) with
  | ok u => simp [h2]
  | error e => simp [h2]

/-- C1: invoking any of the six subcommands with any one of the four required
environment variables absent makes the process exit with code 1, print a
missing-variable message to stderr, and attempt no storage-network call. -/
theorem C1_missing_env_fatal (env : PEnv) (fs : FS) (store : Store) (mime : Mime)
    (insecure : Bool) (c : Cmd)
    (h : ∃ v ∈ requiredVars, getenv env v = none) :
    ∃ w ∈ requiredVars,
      runCmd env fs store mime insecure c =
        ⟨[], [missingMsg w], .exited 1, []⟩ := by
  have h' : ∃ v ∈ requiredVars, getenv env v = none ∨ getenv env v = some "" := by
    rcases h with ⟨v, hv, hn⟩
    exact ⟨v, hv, .inl hn⟩
  cases c with
  | upload file key? pfx => exact withSetup_fatal env insecure _ h'
  | presign key expires => exact withSetup_fatal env insecure _ h'
  | head key => exact withSetup_fatal env insecure _ h'
  | list pfx => exact withSetup_fatal env insecure _ h'
  | delete key => exact withSetup_fatal env insecure _ h'
  | overwrite key file => exact withSetup_fatal env insecure _ h'

/-- Witness for C1: with `S3_SECRET_KEY` (among others) absent, `head` exits 1
with the missing-variable message and no storage call. -/
theorem C1_missing_env_fatal_witness :
    (∃ v ∈ requiredVars, getenv [("S3_ACCESS_KEY", "ak")] v = none) ∧
    ∃ w ∈ requiredVars,
      runCmd [("S3_ACCESS_KEY", "ak")] fsEx storeEx mimeEx false (.head "k") =
        ⟨[], [missingMsg w], .exited 1, []⟩ :=
  ⟨by decide,
    C1_missing_env_fatal [("S3_ACCESS_KEY", "ak")] fsEx storeEx mimeEx false (.head "k")
      (by decide)⟩

/-- C9: a required environment variable set to the empty string is treated
exactly like an absent one: the process prints the missing-variable message,
exits with code 1, and attempts no storage call. -/
theorem C9_empty_env_fatal (env : PEnv) (fs : FS) (store : Store) (mime : Mime)
    (insecure : Bool) (c : Cmd)
    (h : ∃ v ∈ requiredVars, getenv env v = some "") :
    ∃ w ∈ requiredVars,
      runCmd env fs store mime insecure c =
        ⟨[], [missingMsg w], .exited 1, []⟩ := by
  have h' : ∃ v ∈ requiredVars, getenv env v = none ∨ getenv env v = some "" := by
    rcases h with ⟨v, hv, hn⟩
    exact ⟨v, hv, .inr hn⟩
  cases c with
  | upload file key? pfx => exact withSetup_fatal env insecure _ h'
  | presign key expires => exact withSetup_fatal env insecure _ h'
  | head key => exact withSetup_fatal env insecure _ h'
  | list pfx => exact withSetup_fatal env insecure _ h'
  | delete key => exact withSetup_fatal env insecure _ h'
  | overwrite key file => exact withSetup_fatal env insecure _ h'

/-- Witness for C9: `S3_ENDPOINT=""` is rejected like a missing variable. -/
theorem C9_empty_env_fatal_witness :
    (∃ v ∈ requiredVars,
      getenv [("S3_ENDPOINT", ""), ("S3_ACCESS_KEY", "ak"), ("S3_SECRET_KEY", "sk"),
        ("S3_BUCKET", "bkt")] v = some "") ∧
    ∃ w ∈ requiredVars,
      runCmd [("S3_ENDPOINT", ""), ("S3_ACCESS_KEY", "ak"), ("S3_SECRET_KEY", "sk"),
          ("S3_BUCKET", "bkt")] fsEx storeEx mimeEx false (.list "") =
        ⟨[], [missingMsg w], .exited 1, []⟩ :=
  ⟨by decide,
    C9_empty_env_fatal [("S3_ENDPOINT", ""), ("S3_ACCESS_KEY", "ak"), ("S3_SECRET_KEY", "sk"),
      ("S3_BUCKET", "bkt")] fsEx storeEx mimeEx false (.list "") (by decide)⟩

/-- C6 counterexample: the claim says the endpoint is passed with only its
LEADING scheme removed and is otherwise unchanged.  For
`S3_ENDPOINT=http://a/http://b` the code passes `a/b` (Python `replace`
removes every occurrence), while the leading-scheme reading gives
`a/http://b`. -/
theorem C6_counterexample :
    make_client [("S3_ENDPOINT", "http://a/http://b"), ("S3_ACCESS_KEY", "ak"),
        ("S3_SECRET_KEY", "sk"), ("S3_BUCKET", "bkt")] false
      = .ok ⟨"a/b", "ak", "sk", true⟩
    ∧ strip_scheme "http://a/http://b" ≠ stripLeadingScheme "http://a/http://b"
    ∧ stripLeadingScheme "http://a/http://b" = "a/http://b" :=
  ⟨rfl, by decide, by decide⟩

/-- C6 (amended): the factory removes every occurrence of `https://` and then
of `http://` from `S3_ENDPOINT`; in particular, whenever the scheme substrings
occur at most as the leading prefix, the endpoint passed to the client
constructor is the value with its leading scheme removed and is otherwise
unchanged (shown for a leading `http://`, a leading `https://`, and for a
scheme-free value). -/
theorem C6_scheme_strip (env : PEnv) (insecure : Bool) (ak sk r : String)
    (hA : getenv env "S3_ACCESS_KEY" = some ak) (hAne : ak ≠ "")
    (hS : getenv env "S3_SECRET_KEY" = some sk) (hSne : sk ≠ "")
    (h1 : hasSub "https://".data r.data = false)
    (h2 : hasSub "http://".data r.data = false) :
    (∀ ep, getenv env "S3_ENDPOINT" = some ep → ep = "http://" ++ r →
      hasSub "https://".data ep.data = false →
      make_client env insecure = .ok ⟨r, ak, sk, !insecure⟩)
    ∧ (∀ ep, getenv env "S3_ENDPOINT" = some ep → ep = "https://" ++ r →
      make_client env insecure = .ok ⟨r, ak, sk, !insecure⟩)
    ∧ (getenv env "S3_ENDPOINT" = some r → r ≠ "" →
      make_client env insecure = .ok ⟨r, ak, sk, !insecure⟩) := by
  refine ⟨?_, ?_, ?_⟩
  · intro ep hep heq hno
    subst heq
    have hne : ("http://" ++ r : String) ≠ "" := by
      intro hc
      have hd := congrArg String.data hc
      rw [String.data_append] at hd
      have hd2 : 'h' :: (['t', 't', 'p', ':', '/', '/'] ++ r.data) = ([] : List Char) := hd
      exact List.noConfusion hd2
    rw [make_client_ok env insecure _ ak sk hep hne hA hAne hS hSne]
    have hs : strip_scheme ("http://" ++ r) = r := by
      unfold strip_scheme
      rw [pyReplace_noSub _ _ _ hno]
      exact pyReplace_leading "http://" r 'h' ['t', 't', 'p', ':', '/', '/'] rfl h2
    rw [hs]
  · intro ep hep heq
    subst heq
    have hne : ("https://" ++ r : String) ≠ "" := by
      intro hc
      have hd := congrArg String.data hc
      rw [String.data_append] at hd
      have hd2 : 'h' :: (['t', 't', 'p', 's', ':', '/', '/'] ++ r.data) = ([] : List Char) := hd
      exact List.noConfusion hd2
    rw [make_client_ok env insecure _ ak sk hep hne hA hAne hS hSne]
    have hs : strip_scheme ("https://" ++ r) = r := by
      unfold strip_scheme
      rw [pyReplace_leading "https://" r 'h' ['t', 't', 'p', 's', ':', '/', '/'] rfl h1]
      exact pyReplace_noSub r "http://" "" h2
    rw [hs]
  · intro hep hrne
    rw [make_client_ok env insecure _ ak sk hep hrne hA hAne hS hSne]
    have hs : strip_scheme r = r := by
      unfold strip_scheme
      rw [pyReplace_noSub _ _ _ h1]
      exact pyReplace_noSub r "http://" "" h2
    rw [hs]

/-- Witness for C6: `S3_ENDPOINT=http://localhost:9000` is passed to the
client constructor as `localhost:9000`. -/
theorem C6_scheme_strip_witness :
    getenv envEx "S3_ENDPOINT" = some ("http://" ++ "localhost:9000")
    ∧ hasSub "http://".data ("localhost:9000" : String).data = false
    ∧ make_client envEx false = .ok ⟨"localhost:9000", "ak", "sk", true⟩ :=
  ⟨by decide, by decide,
    (C6_scheme_strip envEx false "ak" "sk" "localhost:9000"
        (by decide) (by decide) (by decide) (by decide) (by decide) (by decide)).1
      ("http://" ++ "localhost:9000") (by decide) rfl (by decide)⟩

/-- C2 counterexample: `--key ""` is a set `--key`, yet the object is written
under `prefix + basename(file)` (here `pre/f.txt`), not under the given key
`""`: `key = args.key or f"{args.prefix}{file_path.name}"` treats an empty
explicit key as falsy. -/
theorem C2_counterexample :
    (runCmd envEx fsEx storeEx mimeEx false (.upload "f.txt" (some "") "pre/")).calls
      = [.putObject "bkt" "pre/f.txt" [1, 2, 3] 3 "application/octet-stream"]
    ∧ ("pre/f.txt" : String) ≠ "" :=
  ⟨by decide, by decide⟩

/-- C2 (amended): when `--key` is not given the object is written under
`prefix + basename(file)` (prefix defaulting to `""`); when `--key` is set to
a NON-EMPTY string the prefix is ignored and the object is written under
exactly the given key (an empty `--key` falls back to the prefix form). -/
theorem C2_upload_key (env : PEnv) (fs : FS) (store : Store) (mime : Mime) (insecure : Bool)
    (file : String) (key? : Option String) (pfx? : Option String) (data : List Nat)
    (ep ak sk bk : String)
    (hE : getenv env "S3_ENDPOINT" = some ep) (hEne : ep ≠ "")
    (hA : getenv env "S3_ACCESS_KEY" = some ak) (hAne : ak ≠ "")
    (hS : getenv env "S3_SECRET_KEY" = some sk) (hSne : sk ≠ "")
    (hB : getenv env "S3_BUCKET" = some bk) (hBne : bk ≠ "")
    (hf : fs file = some data) :
    (key? = none →
      (runCmd env fs store mime insecure (parseUpload file key? pfx?)).calls =
        [.putObject bk ((pfx?.getD "") ++ pathName file) data data.length
          (guess_content_type mime file)])
    ∧ (∀ k, key? = some k → k ≠ "" →
      (runCmd env fs store mime insecure (parseUpload file key? pfx?)).calls =
        [.putObject bk k data data.length (guess_content_type mime file)]) := by
  constructor
  · intro hk
    subst hk
    exact do_upload_calls env fs store mime insecure file none (pfx?.getD "") data
      ep ak sk bk hE hEne hA hAne hS hSne hB hBne hf
  · intro k hk hkne
    subst hk
    have hconv : (runCmd env fs store mime insecure (parseUpload file (some k) pfx?)).calls
        = (do_upload env fs store mime insecure file (some k) (pfx?.getD "")).calls := rfl
    rw [hconv, do_upload_calls env fs store mime insecure file (some k) (pfx?.getD "") data
      ep ak sk bk hE hEne hA hAne hS hSne hB hBne hf]
    simp [pyOr, hkne]

/-- Witness for C2 (amended): a non-empty `--key mykey` wins over the prefix. -/
theorem C2_upload_key_witness :
    fsEx "f.txt" = some [1, 2, 3]
    ∧ (runCmd envEx fsEx storeEx mimeEx false
        (parseUpload "f.txt" (some "mykey") (some "pre/"))).calls
      = [.putObject "bkt" "mykey" [1, 2, 3] 3 "application/octet-stream"] :=
  ⟨by decide,
    (C2_upload_key envEx fsEx storeEx mimeEx false "f.txt" (some "mykey") (some "pre/")
        [1, 2, 3] "http://localhost:9000" "ak" "sk" "bkt"
        (by decide) (by decide) (by decide) (by decide) (by decide) (by decide)
        (by decide) (by decide) (by decide)).2
      "mykey" rfl (by decide)⟩

/-- C10: `--key` given as the empty string is ignored: the invocation behaves
exactly as if `--key` had not been given, and the object is written under
`prefix + basename(file)`. -/
theorem C10_empty_key (env : PEnv) (fs : FS) (store : Store) (mime : Mime) (insecure : Bool)
    (file pfx : String) (data : List Nat) (ep ak sk bk : String)
    (hE : getenv env "S3_ENDPOINT" = some ep) (hEne : ep ≠ "")
    (hA : getenv env "S3_ACCESS_KEY" = some ak) (hAne : ak ≠ "")
    (hS : getenv env "S3_SECRET_KEY" = some sk) (hSne : sk ≠ "")
    (hB : getenv env "S3_BUCKET" = some bk) (hBne : bk ≠ "")
    (hf : fs file = some data) :
    runCmd env fs store mime insecure (.upload file (some "") pfx)
      = runCmd env fs store mime insecure (.upload file none pfx)
    ∧ (runCmd env fs store mime insecure (.upload file (some "") pfx)).calls
      = [.putObject bk (pfx ++ pathName file) data data.length
          (guess_content_type mime file)] := by
  have heq : runCmd env fs store mime insecure (.upload file (some "") pfx)
      = runCmd env fs store mime insecure (.upload file none pfx) := rfl
  refine ⟨heq, ?_⟩
  rw [heq]
  exact do_upload_calls env fs store mime insecure file none pfx data ep ak sk bk
    hE hEne hA hAne hS hSne hB hBne hf

/-- Witness for C10: uploading `f.txt` with `--key ""` and prefix `pre/`
writes `pre/f.txt`. -/
theorem C10_empty_key_witness :
    fsEx "f.txt" = some [1, 2, 3]
    ∧ (runCmd envEx fsEx storeEx mimeEx false (.upload "f.txt" (some "") "pre/")
        = runCmd envEx fsEx storeEx mimeEx false (.upload "f.txt" none "pre/"))
    ∧ (runCmd envEx fsEx storeEx mimeEx false (.upload "f.txt" (some "") "pre/")).calls
      = [.putObject "bkt" "pre/f.txt" [1, 2, 3] 3 "application/octet-stream"] :=
  ⟨by decide,
    (C10_empty_key envEx fsEx storeEx mimeEx false "f.txt" "pre/" [1, 2, 3]
        "http://localhost:9000" "ak" "sk" "bkt"
        (by decide) (by decide) (by decide) (by decide) (by decide) (by decide)
        (by decide) (by decide) (by decide)).1,
    (C10_empty_key envEx fsEx storeEx mimeEx false "f.txt" "pre/" [1, 2, 3]
        "http://localhost:9000" "ak" "sk" "bkt"
        (by decide) (by decide) (by decide) (by decide) (by decide) (by decide)
        (by decide) (by decide) (by decide)).2⟩

/-- C8: an upload or overwrite whose local file does not exist prints a fatal
message to stderr and exits 1 with no storage call attempted. -/
theorem C8_file_not_found (env : PEnv) (fs : FS) (store : Store) (mime : Mime)
    (insecure : Bool) (file : String) (key? : Option String) (pfx key2 : String)
    (ep ak sk bk : String)
    (hE : getenv env "S3_ENDPOINT" = some ep) (hEne : ep ≠ "")
    (hA : getenv env "S3_ACCESS_KEY" = some ak) (hAne : ak ≠ "")
    (hS : getenv env "S3_SECRET_KEY" = some sk) (hSne : sk ≠ "")
    (hB : getenv env "S3_BUCKET" = some bk) (hBne : bk ≠ "")
    (hf : fs file = none) :
    runCmd env fs store mime insecure (.upload file key? pfx)
      = ⟨[], ["[FATAL] File not found: " ++ file], .exited 1, []⟩
    ∧ runCmd env fs store mime insecure (.overwrite key2 file)
      = ⟨[], ["[FATAL] File not found: " ++ file], .exited 1, []⟩ := by
  constructor
  · show do_upload env fs store mime insecure file key? pfx = _
    unfold do_upload
    rw [withSetup_ok env insecure _ ep ak sk bk hE hEne hA hAne hS hSne hB hBne]
    simp [hf]
  · show do_overwrite env fs store mime insecure key2 file = _
    unfold do_overwrite
    rw [withSetup_ok env insecure _ ep ak sk bk hE hEne hA hAne hS hSne hB hBne]
    simp [hf]

/-- Witness for C8: `g.txt` does not exist, so upload and overwrite fail fast. -/
theorem C8_file_not_found_witness :
    fsEx "g.txt" = none
    ∧ runCmd envEx fsEx storeEx mimeEx false (.upload "g.txt" none "")
      = ⟨[], ["[FATAL] File not found: g.txt"], .exited 1, []⟩
    ∧ runCmd envEx fsEx storeEx mimeEx false (.overwrite "k" "g.txt")
      = ⟨[], ["[FATAL] File not found: g.txt"], .exited 1, []⟩ :=
  ⟨by decide,
    C8_file_not_found envEx fsEx storeEx mimeEx false "g.txt" none "" "k"
      "http://localhost:9000" "ak" "sk" "bkt"
      (by decide) (by decide) (by decide) (by decide) (by decide) (by decide)
      (by decide) (by decide) (by decide)⟩

/-- C4: `head` on a key the store reports as missing prints an error to
stderr and exits 1; on an existing key it prints exactly the size, content
type and etag the store returned (together with the key, in one print). -/
theorem C4_head (env : PEnv) (fs : FS) (store : Store) (mime : Mime) (insecure : Bool)
    (key : String) (ep ak sk bk : String)
    (hE : getenv env "S3_ENDPOINT" = some ep) (hEne : ep ≠ "")
    (hA : getenv env "S3_ACCESS_KEY" = some ak) (hAne : ak ≠ "")
    (hS : getenv env "S3_SECRET_KEY" = some sk) (hSne : sk ≠ "")
    (hB : getenv env "S3_BUCKET" = some bk) (hBne : bk ≠ "") :
    (∀ e, store.stat bk key = .error e →
      runCmd env fs store mime insecure (.head key)
        = ⟨[], ["[ERR] " ++ e], .exited 1, [.statObject bk key]⟩)
    ∧ (∀ st, store.stat bk key = .ok st →
      runCmd env fs store mime insecure (.head key)
        = ⟨[headLine key st], [], .ok, [.statObject bk key]⟩) := by
  constructor
  · intro e he
    show do_head env store insecure key = _
    unfold do_head
    rw [withSetup_ok env insecure _ ep ak sk bk hE hEne hA hAne hS hSne hB hBne]
    simp [he]
  · intro st hst
    show do_head env store insecure key = _
    unfold do_head
    rw [withSetup_ok env insecure _ ep ak sk bk hE hEne hA hAne hS hSne hB hBne]
    simp [hst]

/-- Witness for C4: `head gone` exits 1 with `[ERR] NoSuchKey`; `head k`
prints the stored size, content type and etag. -/
theorem C4_head_witness :
    storeEx.stat "bkt" "gone" = .error "NoSuchKey"
    ∧ runCmd envEx fsEx storeEx mimeEx false (.head "gone")
      = ⟨[], ["[ERR] NoSuchKey"], .exited 1, [.statObject "bkt" "gone"]⟩
    ∧ storeEx.stat "bkt" "k" = .ok ⟨3, "text/plain", "etag1"⟩
    ∧ runCmd envEx fsEx storeEx mimeEx false (.head "k")
      = ⟨["Key: k\nSize: 3\nContentType: text/plain\nETag: etag1"], [], .ok,
          [.statObject "bkt" "k"]⟩ :=
  ⟨rfl,
    (C4_head envEx fsEx storeEx mimeEx false "gone" "http://localhost:9000" "ak" "sk" "bkt"
        (by decide) (by decide) (by decide) (by decide) (by decide) (by decide)
        (by decide) (by decide)).1 "NoSuchKey" rfl,
    rfl,
    (C4_head envEx fsEx storeEx mimeEx false "k" "http://localhost:9000" "ak" "sk" "bkt"
        (by decide) (by decide) (by decide) (by decide) (by decide) (by decide)
        (by decide) (by decide)).2 ⟨3, "text/plain", "etag1"⟩ rfl⟩

/-- C5: `list` prints literally `(empty)` when the store returns no objects
for the prefix, and otherwise prints exactly one line
`name<TAB>size` followed by `B` per returned object, in the store's order. -/
theorem C5_list (env : PEnv) (fs : FS) (store : Store) (mime : Mime) (insecure : Bool)
    (pfx : String) (objs : List SObj) (ep ak sk bk : String)
    (hE : getenv env "S3_ENDPOINT" = some ep) (hEne : ep ≠ "")
    (hA : getenv env "S3_ACCESS_KEY" = some ak) (hAne : ak ≠ "")
    (hS : getenv env "S3_SECRET_KEY" = some sk) (hSne : sk ≠ "")
    (hB : getenv env "S3_BUCKET" = some bk) (hBne : bk ≠ "")
    (hl : store.listO bk (pyOrStr pfx "") = .ok objs) :
    (objs = [] → (runCmd env fs store mime insecure (.list pfx)).stdout = ["(empty)"])
    ∧ (objs ≠ [] →
      (runCmd env fs store mime insecure (.list pfx)).stdout = objs.map listLine) := by
  have hrun : runCmd env fs store mime insecure (.list pfx)
      = do_list env store insecure pfx := rfl
  constructor
  · intro h0
    subst h0
    rw [hrun]
    unfold do_list
    rw [withSetup_ok env insecure _ ep ak sk bk hE hEne hA hAne hS hSne hB hBne]
    simp [hl]
  · intro hne
    rw [hrun]
    unfold do_list
    rw [withSetup_ok env insecure _ ep ak sk bk hE hEne hA hAne hS hSne hB hBne]
    simp [hl, hne]

/-- Witness for C5: an empty listing prints `(empty)`; a two-object listing
prints its two tab-separated lines in order. -/
theorem C5_list_witness :
    storeEmpty.listO "bkt" "" = .ok []
    ∧ (runCmd envEx fsEx storeEmpty mimeEx false (.list "")).stdout = ["(empty)"]
    ∧ storeEx.listO "bkt" "" = .ok [⟨"a.txt", 3⟩, ⟨"b.bin", 7⟩]
    ∧ (runCmd envEx fsEx storeEx mimeEx false (.list "")).stdout
      = ["a.txt\t3B", "b.bin\t7B"] :=
  ⟨rfl,
    (C5_list envEx fsEx storeEmpty mimeEx false "" [] "http://localhost:9000" "ak" "sk" "bkt"
        (by decide) (by decide) (by decide) (by decide) (by decide) (by decide)
        (by decide) (by decide) rfl).1 rfl,
    rfl,
    (C5_list envEx fsEx storeEx mimeEx false "" [⟨"a.txt", 3⟩, ⟨"b.bin", 7⟩]
        "http://localhost:9000" "ak" "sk" "bkt"
        (by decide) (by decide) (by decide) (by decide) (by decide) (by decide)
        (by decide) (by decide) rfl).2 (by decide)⟩

/-- C7: the expiry passed to the store's presigned-URL operation is exactly
the `--expires` value in seconds (`timedelta(seconds=args.expires)`), with
`argparse` default 300 when the flag is omitted, and the requested key is the
command-line key. -/
theorem C7_presign (env : PEnv) (fs : FS) (store : Store) (mime : Mime) (insecure : Bool)
    (key : String) (expires? : Option Int) (ep ak sk bk : String)
    (hE : getenv env "S3_ENDPOINT" = some ep) (hEne : ep ≠ "")
    (hA : getenv env "S3_ACCESS_KEY" = some ak) (hAne : ak ≠ "")
    (hS : getenv env "S3_SECRET_KEY" = some sk) (hSne : sk ≠ "")
    (hB : getenv env "S3_BUCKET" = some bk) (hBne : bk ≠ "") :
    (runCmd env fs store mime insecure (parsePresign key expires?)).calls
      = [.presignedGetObject bk key (expires?.getD 300)]
    ∧ parsePresign key none = Cmd.presign key 300 := by
  constructor
  · show (do_presign env store insecure key (expires?.getD 300)).calls = _
    unfold do_presign
    rw [withSetup_ok env insecure _ ep ak sk bk hE hEne hA hAne hS hSne hB hBne]
    cases hp : store.presign bk key (expires?.getD 300) with
    | ok url => simp [hp]
    | error e => simp [hp]
  · rfl

/-- Witness for C7: `presign k --expires 60` passes expiry 60; with the flag
omitted the parsed command carries 300. -/
theorem C7_presign_witness :
    (runCmd envEx fsEx storeEx mimeEx false (parsePresign "k" (some 60))).calls
      = [.presignedGetObject "bkt" "k" 60]
    ∧ parsePresign "k" none = Cmd.presign "k" 300 :=
  ⟨(C7_presign envEx fsEx storeEx mimeEx false "k" (some 60)
      "http://localhost:9000" "ak" "sk" "bkt"
      (by decide) (by decide) (by decide) (by decide) (by decide) (by decide)
      (by decide) (by decide)).1,
    (C7_presign envEx fsEx storeEx mimeEx false "k" none
      "http://localhost:9000" "ak" "sk" "bkt"
      (by decide) (by decide) (by decide) (by decide) (by decide) (by decide)
      (by decide) (by decide)).2⟩

/-- C3 counterexample: when the store rejects a `delete`, the handler does NOT
catch the error at the call site: nothing is printed to stderr by the program
and no `sys.exit` happens; the `S3Error` propagates uncaught out of the
handler (only `do_head` has a `try/except`). -/
theorem C3_counterexample :
    (runCmd envEx fsEx storeFail mimeEx false (.delete "k")).stderr = []
    ∧ (runCmd envEx fsEx storeFail mimeEx false (.delete "k")).result = .raised "boom" :=
  ⟨by decide, by decide⟩

/-- C3 (amended): when the store rejects the call, `head` alone catches the
error at the call site, prints `[ERR] <message>` to stderr and exits 1; for
the other five subcommands the error propagates uncaught out of the handler,
and it is the interpreter's default handler that prints it to the error
stream and makes the process exit non-zero. -/
theorem C3_remote_error (env : PEnv) (fs : FS) (store : Store) (mime : Mime) (insecure : Bool)
    (key key2 file pfx : String) (key? : Option String) (expires : Int)
    (data : List Nat) (e : String) (ep ak sk bk : String)
    (hE : getenv env "S3_ENDPOINT" = some ep) (hEne : ep ≠ "")
    (hA : getenv env "S3_ACCESS_KEY" = some ak) (hAne : ak ≠ "")
    (hS : getenv env "S3_SECRET_KEY" = some sk) (hSne : sk ≠ "")
    (hB : getenv env "S3_BUCKET" = some bk) (hBne : bk ≠ "")
    (hf : fs file = some data)
    (hstat : ∀ b k, store.stat b k = .error e)
    (hlist : ∀ b p, store.listO b p = .error e)
    (hput : ∀ b k d c, store.put b k d c = .error e)
    (hrem : ∀ b k, store.remove b k = .error e)
    (hpre : ∀ b k x, store.presign b k x = .error e) :
    runCmd env fs store mime insecure (.head key)
      = ⟨[], ["[ERR] " ++ e], .exited 1, [.statObject bk key]⟩
    ∧ (runCmd env fs store mime insecure (.delete key)).result = .raised e
    ∧ (runCmd env fs store mime insecure (.presign key expires)).result = .raised e
    ∧ (runCmd env fs store mime insecure (.list pfx)).result = .raised e
    ∧ (runCmd env fs store mime insecure (.upload file key? pfx)).result = .raised e
    ∧ (runCmd env fs store mime insecure (.overwrite key2 file)).result = .raised e
    ∧ ∀ c ∈ [Cmd.head key, Cmd.delete key, Cmd.presign key expires, Cmd.list pfx,
        Cmd.upload file key? pfx, Cmd.overwrite key2 file],
        (runProgram env fs store mime insecure c).result = .exited 1
        ∧ (runProgram env fs store mime insecure c).stderr ≠ [] := by
  have Hh : runCmd env fs store mime insecure (.head key)
      = ⟨[], ["[ERR] " ++ e], .exited 1, [.statObject bk key]⟩ := by
    show do_head env store insecure key = _
    unfold do_head
    rw [withSetup_ok env insecure _ ep ak sk bk hE hEne hA hAne hS hSne hB hBne]
    simp [hstat]
  have Hd : runCmd env fs store mime insecure (.delete key)
      = ⟨[], [], .raised e, [.removeObject bk key]⟩ := by
    show do_delete env store insecure key = _
    unfold do_delete
    rw [withSetup_ok env insecure _ ep ak sk bk hE hEne hA hAne hS hSne hB hBne]
    simp [hrem]
  have Hp : runCmd env fs store mime insecure (.presign key expires)
      = ⟨[], [], .raised e, [.presignedGetObject bk key expires]⟩ := by
    show do_presign env store insecure key expires = _
    unfold do_presign
    rw [withSetup_ok env insecure _ ep ak sk bk hE hEne hA hAne hS hSne hB hBne]
    simp [hpre]
  have Hl : runCmd env fs store mime insecure (.list pfx)
      = ⟨[], [], .raised e, [.listObjects bk (pyOrStr pfx "") true]⟩ := by
    show do_list env store insecure pfx = _
    unfold do_list
    rw [withSetup_ok env insecure _ ep ak sk bk hE hEne hA hAne hS hSne hB hBne]
    simp [hlist]
  have Hu : runCmd env fs store mime insecure (.upload file key? pfx)
      = ⟨["[STEP] Uploading " ++ file ++ " -> s3://" ++ bk ++ "/"
            ++ pyOr key? (pfx ++ pathName file)], [], .raised e,
          [.putObject bk (pyOr key? (pfx ++ pathName file)) data data.length
            (guess_content_type mime file)]⟩ := by
    show do_upload env fs store mime insecure file key? pfx = _
    unfold do_upload
    rw [withSetup_ok env insecure _ ep ak sk bk hE hEne hA hAne hS hSne hB hBne]
    simp [hf, hput]
  have Ho : runCmd env fs store mime insecure (.overwrite key2 file)
      = ⟨["[STEP] Overwriting " ++ file ++ " -> s3://" ++ bk ++ "/" ++ key2], [], .raised e,
          [.putObject bk key2 data data.length (guess_content_type mime file)]⟩ := by
    show do_overwrite env fs store mime insecure key2 file = _
    unfold do_overwrite
    rw [withSetup_ok env insecure _ ep ak sk bk hE hEne hA hAne hS hSne hB hBne]
    simp [hf, hput]
  refine ⟨Hh, by rw [Hd], by rw [Hp], by rw [Hl], by rw [Hu], by rw [Ho], ?_⟩
  intro c hc
  simp only [List.mem_cons, List.not_mem_nil, or_false] at hc
  rcases hc with rfl | rfl | rfl | rfl | rfl | rfl
  · exact ⟨by simp [runProgram, pythonRun, Hh], by simp [runProgram, pythonRun, Hh]⟩
  · exact ⟨by simp [runProgram, pythonRun, Hd], by simp [runProgram, pythonRun, Hd]⟩
  · exact ⟨by simp [runProgram, pythonRun, Hp], by simp [runProgram, pythonRun, Hp]⟩
  · exact ⟨by simp [runProgram, pythonRun, Hl], by simp [runProgram, pythonRun, Hl]⟩
  · exact ⟨by simp [runProgram, pythonRun, Hu], by simp [runProgram, pythonRun, Hu]⟩
  · exact ⟨by simp [runProgram, pythonRun, Ho], by simp [runProgram, pythonRun, Ho]⟩

/-- Witness for C3 (amended): against a store rejecting everything with
`boom`, `head` exits 1 with `[ERR] boom`, `delete` raises uncaught, and every
subcommand's whole process exits 1 with a non-empty error stream. -/
theorem C3_remote_error_witness :
    fsEx "f.txt" = some [1, 2, 3]
    ∧ runCmd envEx fsEx storeFail mimeEx false (.head "k")
      = ⟨[], ["[ERR] boom"], .exited 1, [.statObject "bkt" "k"]⟩
    ∧ (runCmd envEx fsEx storeFail mimeEx false (.delete "k")).result = .raised "boom"
    ∧ ∀ c ∈ [Cmd.head "k", Cmd.delete "k", Cmd.presign "k" 300, Cmd.list "",
        Cmd.upload "f.txt" none "", Cmd.overwrite "k2" "f.txt"],
        (runProgram envEx fsEx storeFail mimeEx false c).result = .exited 1
        ∧ (runProgram envEx fsEx storeFail mimeEx false c).stderr ≠ [] := by
  have h := C3_remote_error envEx fsEx storeFail mimeEx false "k" "k2" "f.txt" "" none 300
    [1, 2, 3] "boom" "http://localhost:9000" "ak" "sk" "bkt"
    (by decide) (by decide) (by decide) (by decide) (by decide) (by decide)
    (by decide) (by decide) (by decide)
    (fun _ _ => rfl) (fun _ _ => rfl) (fun _ _ _ _ => rfl) (fun _ _ => rfl)
    (fun _ _ _ => rfl)
  exact ⟨by decide, h.1, h.2.1, h.2.2.2.2.2.2⟩
